import Mathlib

/-!
Verification of the resource-availability calculator and allocation
submitter of `AddResourceModal` (file
`src/components/projects/AddResourceModal.tsx`).

Quantities are JavaScript numbers; they are embedded as rationals (`ℚ`).
An allocation's `quantity` column may be null/undefined, so it is embedded
as `Option ℚ`; the JavaScript truthiness fallback `x || d` on numbers is
`jsOrNum` (`0` is falsy; `NaN` is outside the embedding).
-/

/-- JavaScript `x || d` for two numbers: `d` when `x` is falsy (`0`), else `x`. -/
def jsOrNum (x d : ℚ) : ℚ :=
  if x = 0 then d else x

/-- JavaScript `x || d` where `x` may be null/undefined (embedded as `none`). -/
def jsNumOpt (x : Option ℚ) (d : ℚ) : ℚ :=
  match x with
  | none => d
  | some q => jsOrNum q d

/-- A row of the `resources` collection, as used by the modal. -/
structure Resource where
  id : String
  name : String
  type : String
  unit : String
  quantity : ℚ
  cost : ℚ
  returnable : Bool
  status : String
deriving Repr, DecidableEq

/-- A row of the `resource_allocations` collection.  The `quantity` column is
nullable, hence `Option ℚ`. -/
structure Allocation where
  id : String
  project_id : String
  resource_id : String
  quantity : Option ℚ
  consumed : Bool
deriving Repr, DecidableEq

/-- A resource annotated with availability info, as built by `fetchResources`:
the spread of the original resource plus `allocated`, `available` and the
recomputed `status`. -/
structure AResource extends Resource where
  allocated : ℚ
  available : ℚ
deriving Repr, DecidableEq

/-- Status banding from `fetchResources` (lines 106-112):
`availableQty <= 0` gives "Out of Stock", else `availableQty <
quantity * 0.2` gives "Low Stock", else "Available". -/
def computeStatus (availableQty quantity : ℚ) : String :=
  if availableQty ≤ 0 then "Out of Stock"
  else if availableQty < quantity * 0.2 then "Low Stock"
  else "Available"

/-- The per-resource body of the `resourcesData.map` in `fetchResources`
(lines 93-121): filter the unconsumed allocations referencing the resource,
fold their quantities (with `alloc.quantity || 0`), derive `availableQty`
and the status, and return the annotated resource. -/
def annotateResource (allocationsData : List Allocation) (resource : Resource) : AResource :=
  let allocations := allocationsData.filter fun alloc =>
    alloc.resource_id == resource.id && !alloc.consumed
  let allocatedQuantity := allocations.foldl (fun sum alloc => sum + jsNumOpt alloc.quantity 0) 0
  let availableQty := resource.quantity - allocatedQuantity
  { toResource := { resource with status := computeStatus availableQty resource.quantity },
    allocated := allocatedQuantity,
    available := availableQty }

/-- The availability calculator of `fetchResources`: annotate every resource,
then keep only those with `available > 0` (lines 93-126). -/
def computeAvailability (resourcesData : List Resource) (allocationsData : List Allocation) :
    List AResource :=
  (resourcesData.map (annotateResource allocationsData)).filter fun resource =>
    decide (resource.available > 0)

/-- The allocated total as the specification words it: the sum of the
quantity fields of exactly those allocations whose resource reference equals
the resource's identifier and whose consumed flag is false. -/
def specAllocated (R : Resource) (A : List Allocation) : ℚ :=
  ((A.filter fun a => decide (a.resource_id = R.id ∧ a.consumed = false)).map
    fun a => a.quantity.getD 0).sum

/-- Where a submission attempt stops: schema validation failure (zod message),
the `onSubmit` selection guard, the `onSubmit` quantity double-check, a failed
insert, or success. -/
inductive SubmitOutcome where
  | schemaError (message : String)
  | selectionError
  | quantityError
  | persistenceError
  | success
deriving Repr, DecidableEq

/-- The row inserted into `resource_allocations` on success (lines 180-185). -/
structure AllocationInsert where
  project_id : String
  resource_id : String
  quantity : ℚ
  consumed : Bool
deriving Repr, DecidableEq

/-- A notification handed to the toast sink. -/
structure Toast where
  title : String
  description : String
  destructive : Bool
deriving Repr, DecidableEq

/-- The observable effects of one submission attempt. -/
structure SubmitResult where
  outcome : SubmitOutcome
  insertAttempts : Nat
  inserted : List AllocationInsert
  onResourceAddedCalls : Nat
  toasts : List Toast
  submittingAfter : Bool
deriving Repr, DecidableEq

/-- One submission attempt: `zodResolver(FormSchema)` validation (lines 54-62,
run by `form.handleSubmit` before `onSubmit`), then `onSubmit` (lines 158-203):
the `selectedResource` guard, the quantity double-check against the current
`availableQuantity` state, and the insert.  `schemaBound` is the
`availableQuantity` captured in the `FormSchema` closure; `insertFails` says
whether the remote insert rejects.  `react-hook-form` clears `isSubmitting`
once `onSubmit` settles, and `onSubmit` catches every error, so
`submittingAfter` is false on every path. -/
def handleSubmit (selectedResource : Option AResource) (schemaBound availableQuantity : ℚ)
    (projectId resourceId : String) (quantity : ℚ) (insertFails : Bool) : SubmitResult :=
  if quantity ≤ 0 then
    { outcome := .schemaError "Quantity must be positive", insertAttempts := 0, inserted := [],
      onResourceAddedCalls := 0, toasts := [], submittingAfter := false }
  else if schemaBound < quantity then
    { outcome := .schemaError ("Maximum available quantity is " ++ toString schemaBound),
      insertAttempts := 0, inserted := [], onResourceAddedCalls := 0, toasts := [],
      submittingAfter := false }
  else
    match selectedResource with
    | none =>
      { outcome := .selectionError, insertAttempts := 0, inserted := [],
        onResourceAddedCalls := 0,
        toasts := [{ title := "Selection error", description := "Please select a resource first",
                     destructive := true }],
        submittingAfter := false }
    | some _ =>
      if availableQuantity < quantity then
        { outcome := .quantityError, insertAttempts := 0, inserted := [],
          onResourceAddedCalls := 0,
          toasts := [{ title := "Quantity error",
                       description := "Only " ++ toString availableQuantity ++ " units available",
                       destructive := true }],
          submittingAfter := false }
      else if insertFails then
        { outcome := .persistenceError, insertAttempts := 1, inserted := [],
          onResourceAddedCalls := 0,
          toasts := [{ title := "Error", description := "Failed to add resource to project",
                       destructive := true }],
          submittingAfter := false }
      else
        { outcome := .success, insertAttempts := 1,
          inserted := [{ project_id := projectId, resource_id := resourceId,
                         quantity := quantity, consumed := false }],
          onResourceAddedCalls := 1,
          toasts := [{ title := "Resource added",
                       description := "Resource has been added to the project",
                       destructive := false }],
          submittingAfter := false }

/-- The component state coupled to resource selection: `selectedResource`,
`availableQuantity` and the form's `quantity` value. -/
structure FormState where
  selectedResource : Option AResource
  availableQuantity : ℚ
  quantity : ℚ
deriving Repr, DecidableEq

/-- The body of the `useEffect` watching `resourceId` (lines 147-156): when
the watched id is truthy and found among the fetched resources, set the
selected resource, set `availableQuantity` to `resource.available ||
resource.quantity`, and reset the form quantity to 1; otherwise leave the
state unchanged. -/
def selectResourceEffect (resources : List AResource) (watchResourceId : String)
    (st : FormState) : FormState :=
  if watchResourceId = "" then st
  else
    match resources.find? fun r => r.id == watchResourceId with
    | some resource =>
      { selectedResource := some resource,
        availableQuantity := jsOrNum resource.available resource.quantity,
        quantity := 1 }
    | none => st

/-- Example resource: 10 bags of cement, fully allocated by `sampleAllocFull`. -/
def sampleResourceA : Resource :=
  { id := "r1", name := "Cement", type := "Material", unit := "bag",
    quantity := 10, cost := 8, returnable := false, status := "Available" }

/-- Example resource: 5 tons of sand, no allocations against it. -/
def sampleResourceB : Resource :=
  { id := "r2", name := "Sand", type := "Material", unit := "ton",
    quantity := 5, cost := 30, returnable := false, status := "Available" }

/-- Example allocation: 10 unconsumed units of resource `r1`. -/
def sampleAllocFull : Allocation :=
  { id := "a1", project_id := "p1", resource_id := "r1", quantity := some 10, consumed := false }

/-- Example allocation with a null quantity column. -/
def sampleAllocNull : Allocation :=
  { id := "a2", project_id := "p1", resource_id := "r1", quantity := none, consumed := false }

/-- Example annotated resource: sand with nothing allocated, 5 available. -/
def sampleARes : AResource :=
  { toResource := sampleResourceB, allocated := 0, available := 5 }

lemma foldl_add_map_sum {α : Type} (f : α → ℚ) (l : List α) (init : ℚ) :
    l.foldl (fun s a => s + f a) init = init + (l.map f).sum := by
  induction l generalizing init with
  | nil => simp
  | cons a t ih =>
    simp only [List.foldl_cons, List.map_cons, List.sum_cons, ih]
    ring

lemma jsNumOpt_getD (x : Option ℚ) : jsNumOpt x 0 = x.getD 0 := by
  cases x with
  | none => rfl
  | some q =>
    simp only [jsNumOpt, jsOrNum, Option.getD_some]
    split <;> simp_all

lemma jsOrNum_of_ne_zero {x : ℚ} (d : ℚ) (h : x ≠ 0) : jsOrNum x d = x := by
  simp [jsOrNum, h]

lemma getD_eq_zero {x : Option ℚ} (h : x = none ∨ x = some 0) : x.getD 0 = 0 := by
  rcases h with h | h <;> subst h <;> rfl

lemma sourceFilter_eq_specFilter (R : Resource) (a : Allocation) :
    (a.resource_id == R.id && !a.consumed) = decide (a.resource_id = R.id ∧ a.consumed = false) := by
  rw [Bool.eq_iff_iff]
  cases h : a.consumed <;> simp [h, beq_iff_eq]

lemma annotateResource_allocated (R : Resource) (A : List Allocation) :
    (annotateResource A R).allocated = specAllocated R A := by
  have hfun : (fun a : Allocation => jsNumOpt a.quantity 0) =
      fun a : Allocation => a.quantity.getD 0 := funext fun a => jsNumOpt_getD a.quantity
  have hfilter : (A.filter fun a => a.resource_id == R.id && !a.consumed) =
      A.filter fun a => decide (a.resource_id = R.id ∧ a.consumed = false) :=
    List.filter_congr fun a _ => sourceFilter_eq_specFilter R a
  show (A.filter fun alloc => alloc.resource_id == R.id && !alloc.consumed).foldl
      (fun sum alloc => sum + jsNumOpt alloc.quantity 0) 0 = specAllocated R A
  rw [foldl_add_map_sum, hfun, hfilter, specAllocated, zero_add]

lemma annotateResource_available (R : Resource) (A : List Allocation) :
    (annotateResource A R).available = R.quantity - (annotateResource A R).allocated := rfl

lemma mem_computeAvailability_pos {resourcesData : List Resource}
    {allocationsData : List Allocation} {r : AResource}
    (hr : r ∈ computeAvailability resourcesData allocationsData) : 0 < r.available := by
  have h := (List.mem_filter.mp hr).2
  simpa using h

lemma computeAvailability_sublist (resourcesData : List Resource)
    (allocationsData : List Allocation) :
    (computeAvailability resourcesData allocationsData).Sublist
      (resourcesData.map (annotateResource allocationsData)) :=
  List.filter_sublist _

lemma mem_computeAvailability_iff {resourcesData : List Resource}
    {allocationsData : List Allocation} {R : Resource} (hR : R ∈ resourcesData) :
    annotateResource allocationsData R ∈ computeAvailability resourcesData allocationsData ↔
      0 < (annotateResource allocationsData R).available := by
  constructor
  · intro hmem
    exact mem_computeAvailability_pos hmem
  · intro hpos
    refine List.mem_filter.mpr ⟨List.mem_map_of_mem _ hR, by simpa using hpos⟩

lemma handleSubmit_attempts_zero_of_over (sel : Option AResource)
    (schemaBound availableQuantity : ℚ) (projectId resourceId : String) (quantity : ℚ)
    (insertFails : Bool) (h : availableQuantity < quantity) :
    (handleSubmit sel schemaBound availableQuantity projectId resourceId quantity
        insertFails).insertAttempts = 0 := by
  cases sel <;> (unfold handleSubmit; split_ifs <;> simp_all)

lemma computeAvailability_sampleB :
    computeAvailability [sampleResourceB] [] = [annotateResource [] sampleResourceB] := by
  have hpos : (0:ℚ) < (annotateResource [] sampleResourceB).available := by
    have h : (annotateResource [] sampleResourceB).available =
        sampleResourceB.quantity - 0 := rfl
    rw [h]
    norm_num [sampleResourceB]
  simp [computeAvailability, List.filter_cons, hpos]

/-- Claim C1: for every resource `R` and allocation list `A`, the calculator's
`allocated` is the sum of the quantity fields of exactly the allocations in `A`
referencing `R` with `consumed = false`, and `available = R.quantity - allocated`. -/
theorem calculator_allocated_available_correct (R : Resource) (A : List Allocation) :
    (annotateResource A R).allocated = specAllocated R A ∧
    (annotateResource A R).available = R.quantity - specAllocated R A := by
  refine ⟨annotateResource_allocated R A, ?_⟩
  rw [annotateResource_available, annotateResource_allocated]

/-- Claim C2: the status label is a pure total function of
`(available, quantity)`, first-match-wins: `available <= 0` gives
"Out of Stock", else `available < quantity * 0.2` gives "Low Stock", else
"Available"; exactly one label per pair, and the boundary at exactly 20% of
`quantity` is classified "Available" because the comparison is strict. -/
theorem status_banding_correct (availableQty quantity : ℚ) :
    ((computeStatus availableQty quantity = "Out of Stock" ↔ availableQty ≤ 0) ∧
     (computeStatus availableQty quantity = "Low Stock" ↔
        0 < availableQty ∧ availableQty < quantity * 0.2) ∧
     (computeStatus availableQty quantity = "Available" ↔
        0 < availableQty ∧ quantity * 0.2 ≤ availableQty)) ∧
    (0 < availableQty → availableQty = quantity * 0.2 →
      computeStatus availableQty quantity = "Available") := by
  constructor
  · unfold computeStatus
    refine ⟨?_, ?_, ?_⟩ <;> split_ifs with h1 h2 <;> simp_all
  · intro hpos heq
    unfold computeStatus
    rw [if_neg (by linarith), if_neg (by linarith)]

/-- Claim C2 witness: at `available = 1`, `quantity = 5` the boundary is exactly
20% and the label is "Available". -/
theorem status_banding_correct_witness : computeStatus 1 5 = "Available" :=
  (status_banding_correct 1 5).2 (by norm_num) (by norm_num)

/-- Claim C3: the calculator's output is the input resources annotated and
restricted to those with strictly positive `available` (any `available <= 0`
resource is excluded), in the same relative order as the input (a sublist of
the annotated input, hence no reordering). -/
theorem calculator_filter_preserves_order (resourcesData : List Resource)
    (allocationsData : List Allocation) :
    (computeAvailability resourcesData allocationsData).Sublist
        (resourcesData.map (annotateResource allocationsData)) ∧
    (∀ r ∈ computeAvailability resourcesData allocationsData, 0 < r.available) ∧
    (∀ R ∈ resourcesData,
      (annotateResource allocationsData R ∈ computeAvailability resourcesData allocationsData ↔
        0 < (annotateResource allocationsData R).available)) :=
  ⟨computeAvailability_sublist resourcesData allocationsData,
   fun _ hr => mem_computeAvailability_pos hr,
   fun _ hR => mem_computeAvailability_iff hR⟩

/-- Claim C3 witness: with cement (quantity 10) fully allocated and sand
(quantity 5) unallocated, the annotated sand resource is offered by the
calculator. -/
theorem calculator_filter_preserves_order_witness :
    annotateResource [sampleAllocFull] sampleResourceB ∈
      computeAvailability [sampleResourceA, sampleResourceB] [sampleAllocFull] :=
  ((calculator_filter_preserves_order [sampleResourceA, sampleResourceB] [sampleAllocFull]).2.2
    sampleResourceB (by simp)).mpr
    (by
      have h : (annotateResource [sampleAllocFull] sampleResourceB).available =
          sampleResourceB.quantity - 0 := rfl
      rw [h]
      norm_num [sampleResourceB])

/-- Claim C4 counterexample: with no resource selected and a non-positive
quantity, the submission fails at schema validation with the positivity
message, not with the selection error the claimed check order (selection
first) would produce. -/
theorem submit_validation_order_counterexample :
    (handleSubmit none 5 5 "p1" "" 0 false).outcome =
        SubmitOutcome.schemaError "Quantity must be positive" ∧
    (handleSubmit none 5 5 "p1" "" 0 false).outcome ≠ SubmitOutcome.selectionError := by
  have h : (handleSubmit none 5 5 "p1" "" 0 false).outcome =
      SubmitOutcome.schemaError "Quantity must be positive" := by
    norm_num [handleSubmit]
  exact ⟨h, by rw [h]; simp⟩

/-- Claim C4 (amended): validation is checked in this order, each failing
check aborting before any network call (zero insert attempts): positivity at
schema validation, then the availability bound at schema validation (against
the captured bound), then the selection guard, then the bound again against
the current `availableQuantity` immediately before persistence. -/
theorem submit_validation_order (sel : Option AResource) (schemaBound availableQuantity : ℚ)
    (projectId resourceId : String) (quantity : ℚ) (insertFails : Bool) :
    (quantity ≤ 0 →
      handleSubmit sel schemaBound availableQuantity projectId resourceId quantity insertFails =
        { outcome := .schemaError "Quantity must be positive", insertAttempts := 0,
          inserted := [], onResourceAddedCalls := 0, toasts := [], submittingAfter := false }) ∧
    (0 < quantity → schemaBound < quantity →
      (handleSubmit sel schemaBound availableQuantity projectId resourceId quantity
          insertFails).outcome =
        .schemaError ("Maximum available quantity is " ++ toString schemaBound) ∧
      (handleSubmit sel schemaBound availableQuantity projectId resourceId quantity
          insertFails).insertAttempts = 0) ∧
    (0 < quantity → quantity ≤ schemaBound → sel = none →
      (handleSubmit sel schemaBound availableQuantity projectId resourceId quantity
          insertFails).outcome = .selectionError ∧
      (handleSubmit sel schemaBound availableQuantity projectId resourceId quantity
          insertFails).insertAttempts = 0) ∧
    (∀ r : AResource, 0 < quantity → quantity ≤ schemaBound → sel = some r →
      availableQuantity < quantity →
      (handleSubmit sel schemaBound availableQuantity projectId resourceId quantity
          insertFails).outcome = .quantityError ∧
      (handleSubmit sel schemaBound availableQuantity projectId resourceId quantity
          insertFails).insertAttempts = 0) := by
  refine ⟨?_, ?_, ?_, ?_⟩
  · intro h
    unfold handleSubmit
    rw [if_pos h]
  · intro h1 h2
    simp [handleSubmit, not_le.mpr h1, h2]
  · intro h1 h2 hsel
    subst hsel
    simp [handleSubmit, not_le.mpr h1, not_lt.mpr h2]
  · intro r h1 h2 hsel h3
    subst hsel
    simp [handleSubmit, not_le.mpr h1, not_lt.mpr h2, h3]

/-- Claim C4 witness: the amended order at quantity 0 with nothing selected. -/
theorem submit_validation_order_witness :
    handleSubmit none 5 5 "p1" "" 0 false =
      { outcome := .schemaError "Quantity must be positive", insertAttempts := 0,
        inserted := [], onResourceAddedCalls := 0, toasts := [], submittingAfter := false } :=
  (submit_validation_order none 5 5 "p1" "" 0 false).1 (by norm_num)

/-- Claim C5: a submission passing all checks (a quantity exactly equal to
the bound passes) persists exactly one allocation with `consumed = false` and
the given project, resource and quantity, and calls `onResourceAdded` exactly
once; a failing insert calls it zero times and persists nothing. -/
theorem submit_success_persists_once (r : AResource) (schemaBound availableQuantity : ℚ)
    (projectId resourceId : String) (quantity : ℚ)
    (hpos : 0 < quantity) (hschema : quantity ≤ schemaBound)
    (hbound : quantity ≤ availableQuantity) :
    (handleSubmit (some r) schemaBound availableQuantity projectId resourceId quantity
        false).inserted =
      [{ project_id := projectId, resource_id := resourceId, quantity := quantity,
         consumed := false }] ∧
    (handleSubmit (some r) schemaBound availableQuantity projectId resourceId quantity
        false).onResourceAddedCalls = 1 ∧
    (handleSubmit (some r) schemaBound availableQuantity projectId resourceId quantity
        false).outcome = .success ∧
    (handleSubmit (some r) schemaBound availableQuantity projectId resourceId quantity
        true).onResourceAddedCalls = 0 ∧
    (handleSubmit (some r) schemaBound availableQuantity projectId resourceId quantity
        true).inserted = [] := by
  simp [handleSubmit, not_le.mpr hpos, not_lt.mpr hschema, not_lt.mpr hbound]

/-- Claim C5 witness: submitting the full available quantity (5 of 5) succeeds
and persists one unconsumed allocation. -/
theorem submit_success_persists_once_witness :
    (handleSubmit (some sampleARes) 5 5 "p1" "r2" 5 false).inserted =
      [{ project_id := "p1", resource_id := "r2", quantity := 5, consumed := false }] ∧
    (handleSubmit (some sampleARes) 5 5 "p1" "r2" 5 false).onResourceAddedCalls = 1 ∧
    (handleSubmit (some sampleARes) 5 5 "p1" "r2" 5 false).outcome = .success ∧
    (handleSubmit (some sampleARes) 5 5 "p1" "r2" 5 true).onResourceAddedCalls = 0 ∧
    (handleSubmit (some sampleARes) 5 5 "p1" "r2" 5 true).inserted = [] :=
  submit_success_persists_once sampleARes 5 5 "p1" "r2" 5 (by norm_num) (by norm_num)
    (by norm_num)

/-- Claim C6: when the watched resource id is found among the offered
resources, the selection effect resets the pending quantity to 1, stores the
selection and sets `availableQuantity` to the newly selected resource's
computed `available`; and with that bound in force, a quantity exceeding it
never reaches the insert (zero insert attempts). -/
theorem select_resource_resets_quantity (resourcesData : List Resource)
    (allocationsData : List Allocation) (watchResourceId : String) (st : FormState)
    (r : AResource) (hne : watchResourceId ≠ "")
    (hfind : (computeAvailability resourcesData allocationsData).find?
        (fun x => x.id == watchResourceId) = some r) :
    (selectResourceEffect (computeAvailability resourcesData allocationsData)
        watchResourceId st).selectedResource = some r ∧
    (selectResourceEffect (computeAvailability resourcesData allocationsData)
        watchResourceId st).quantity = 1 ∧
    (selectResourceEffect (computeAvailability resourcesData allocationsData)
        watchResourceId st).availableQuantity = r.available ∧
    ∀ (sel : Option AResource) (schemaBound : ℚ) (projectId resourceId : String) (q : ℚ)
      (insertFails : Bool), r.available < q →
      (handleSubmit sel schemaBound
        (selectResourceEffect (computeAvailability resourcesData allocationsData)
          watchResourceId st).availableQuantity projectId resourceId q
        insertFails).insertAttempts = 0 := by
  have hmem : r ∈ computeAvailability resourcesData allocationsData :=
    List.mem_of_find?_eq_some hfind
  have hpos : 0 < r.available := mem_computeAvailability_pos hmem
  have havail : jsOrNum r.available r.quantity = r.available :=
    jsOrNum_of_ne_zero r.quantity (ne_of_gt hpos)
  have heff : selectResourceEffect (computeAvailability resourcesData allocationsData)
      watchResourceId st =
      { selectedResource := some r, availableQuantity := jsOrNum r.available r.quantity,
        quantity := 1 } := by
    unfold selectResourceEffect
    rw [if_neg hne, hfind]
  rw [heff]
  refine ⟨rfl, rfl, havail, ?_⟩
  intro sel schemaBound projectId resourceId q insertFails hq
  exact handleSubmit_attempts_zero_of_over sel schemaBound _ projectId resourceId q
    insertFails (by rw [havail]; exact hq)

/-- Claim C6 witness: selecting sand ("r2") from the computed list, a stale
pending quantity of 7 is reset to 1 and the bound becomes its available 5. -/
theorem select_resource_resets_quantity_witness :
    (selectResourceEffect (computeAvailability [sampleResourceB] []) "r2"
        { selectedResource := none, availableQuantity := 0, quantity := 7 }).selectedResource =
      some (annotateResource [] sampleResourceB) ∧
    (selectResourceEffect (computeAvailability [sampleResourceB] []) "r2"
        { selectedResource := none, availableQuantity := 0, quantity := 7 }).quantity = 1 ∧
    (selectResourceEffect (computeAvailability [sampleResourceB] []) "r2"
        { selectedResource := none, availableQuantity := 0, quantity := 7 }).availableQuantity =
      (annotateResource [] sampleResourceB).available := by
  have hfind : (computeAvailability [sampleResourceB] []).find?
      (fun x => x.id == "r2") = some (annotateResource [] sampleResourceB) := by
    rw [computeAvailability_sampleB]
    rfl
  have h := select_resource_resets_quantity [sampleResourceB] [] "r2"
    { selectedResource := none, availableQuantity := 0, quantity := 7 }
    (annotateResource [] sampleResourceB) (by simp) hfind
  exact ⟨h.1, h.2.1, h.2.2.1⟩

/-- Claim C7: the availability computation is a pure function of its two
inputs: identical inputs give identical outputs, and the input lists are the
same values afterwards (the embedding of the source's `map`/`filter`/`reduce`
pipeline builds new lists and never mutates its inputs). -/
theorem availability_recompute_idempotent (res1 res2 : List Resource)
    (allocs1 allocs2 : List Allocation) (hres : res1 = res2) (hallocs : allocs1 = allocs2) :
    computeAvailability res1 allocs1 = computeAvailability res2 allocs2 ∧
    res1 = res2 ∧ allocs1 = allocs2 :=
  ⟨by rw [hres, hallocs], hres, hallocs⟩

/-- Claim C7 witness: two runs on the same concrete inputs coincide. -/
theorem availability_recompute_idempotent_witness :
    computeAvailability [sampleResourceA] [sampleAllocFull] =
      computeAvailability [sampleResourceA] [sampleAllocFull] ∧
    [sampleResourceA] = [sampleResourceA] ∧ [sampleAllocFull] = [sampleAllocFull] :=
  availability_recompute_idempotent [sampleResourceA] [sampleResourceA]
    [sampleAllocFull] [sampleAllocFull] rfl rfl

/-- Claim C8: the submitting indicator returns to idle on every path, at most
one insert is attempted (no retry), a failing insert writes nothing and does
not call the completion callback, and a persistence failure surfaces the
generic submission-error toast. -/
theorem submit_failure_recovery (sel : Option AResource) (schemaBound availableQuantity : ℚ)
    (projectId resourceId : String) (quantity : ℚ) :
    (∀ insertFails,
      (handleSubmit sel schemaBound availableQuantity projectId resourceId quantity
          insertFails).submittingAfter = false ∧
      (handleSubmit sel schemaBound availableQuantity projectId resourceId quantity
          insertFails).insertAttempts ≤ 1) ∧
    ((handleSubmit sel schemaBound availableQuantity projectId resourceId quantity
        true).inserted = [] ∧
     (handleSubmit sel schemaBound availableQuantity projectId resourceId quantity
        true).onResourceAddedCalls = 0) ∧
    ((handleSubmit sel schemaBound availableQuantity projectId resourceId quantity
        true).outcome = .persistenceError →
      (handleSubmit sel schemaBound availableQuantity projectId resourceId quantity
          true).toasts =
        [{ title := "Error", description := "Failed to add resource to project",
           destructive := true }]) := by
  cases sel <;>
    refine ⟨fun insertFails => ?_, ?_, ?_⟩ <;>
      unfold handleSubmit <;> split_ifs <;> simp_all

/-- Claim C8 witness: a concrete failing insert after all checks pass shows
the generic error toast and the idle indicator. -/
theorem submit_failure_recovery_witness :
    (handleSubmit (some sampleARes) 5 5 "p1" "r2" 3 true).toasts =
      [{ title := "Error", description := "Failed to add resource to project",
         destructive := true }] ∧
    (handleSubmit (some sampleARes) 5 5 "p1" "r2" 3 true).submittingAfter = false :=
  ⟨(submit_failure_recovery (some sampleARes) 5 5 "p1" "r2" 3).2.2
      (by norm_num [handleSubmit]),
   ((submit_failure_recovery (some sampleARes) 5 5 "p1" "r2" 3).1 true).1⟩

/-- Claim C9: an allocation whose quantity is null/undefined (or zero, the
other falsy number) contributes exactly 0 to the allocated sum: removing it
leaves `allocated` and `available` unchanged, and the reduction is total. -/
theorem null_quantity_contributes_zero (R : Resource) (pre post : List Allocation)
    (a : Allocation) (h : a.quantity = none ∨ a.quantity = some 0) :
    (annotateResource (pre ++ a :: post) R).allocated =
      (annotateResource (pre ++ post) R).allocated ∧
    (annotateResource (pre ++ a :: post) R).available =
      (annotateResource (pre ++ post) R).available := by
  have hz : a.quantity.getD 0 = 0 := getD_eq_zero h
  have hallocated : (annotateResource (pre ++ a :: post) R).allocated =
      (annotateResource (pre ++ post) R).allocated := by
    rw [annotateResource_allocated, annotateResource_allocated]
    unfold specAllocated
    rw [List.filter_append, List.filter_append, List.filter_cons]
    split
    · simp [List.map_append, List.sum_append, hz]
    · rfl
  refine ⟨hallocated, ?_⟩
  rw [annotateResource_available, annotateResource_available, hallocated]

/-- Claim C9 witness: a null-quantity allocation does not change cement's
allocated total. -/
theorem null_quantity_contributes_zero_witness :
    (annotateResource ([] ++ sampleAllocNull :: []) sampleResourceA).allocated =
      (annotateResource ([] ++ []) sampleResourceA).allocated ∧
    (annotateResource ([] ++ sampleAllocNull :: []) sampleResourceA).available =
      (annotateResource ([] ++ []) sampleResourceA).available :=
  null_quantity_contributes_zero sampleResourceA [] [] sampleAllocNull (Or.inl rfl)

/-- Claim C10: every resource the calculator offers has strictly positive
computed `available`, so the fallback `resource.available || resource.quantity`
(used for the displayed availability and the validation bound) always
evaluates to the computed `available`, never the raw total quantity. -/
theorem listed_resource_bound_is_available (resourcesData : List Resource)
    (allocationsData : List Allocation) (r : AResource)
    (hr : r ∈ computeAvailability resourcesData allocationsData) :
    0 < r.available ∧ jsOrNum r.available r.quantity = r.available := by
  have hpos : 0 < r.available := mem_computeAvailability_pos hr
  exact ⟨hpos, jsOrNum_of_ne_zero r.quantity (ne_of_gt hpos)⟩

/-- Claim C10 witness: for the listed sand resource the fallback returns the
computed available value. -/
theorem listed_resource_bound_is_available_witness :
    0 < (annotateResource [] sampleResourceB).available ∧
    jsOrNum (annotateResource [] sampleResourceB).available
        (annotateResource [] sampleResourceB).quantity =
      (annotateResource [] sampleResourceB).available :=
  listed_resource_bound_is_available [sampleResourceB] [] (annotateResource [] sampleResourceB)
    (by rw [computeAvailability_sampleB]; simp)
